import Mathlib

/-!
Verification of the construction-tracker application (`src/index.py`), a
Streamlit front-end over a spreadsheet-as-database.  We shallow-embed its
persistence layer (`read_sheet`, `write_sheet`, `append_row`, `log`), the
allocation reconciler on the Record Expense page, the Approvals page
handlers, and the Dashboard aggregations, and prove the specified
properties about them.

Amounts (`float(amount)` in the source) are modelled as exact rationals;
the claims at issue are about which rows change and by how much, not about
binary floating point rounding.  Nondeterministic inputs (`uuid4()`,
`datetime.utcnow()`, form fields, lock acquisition outcomes) are passed in
as explicit parameters.
-/

namespace ConstructionTracker

/-! ## Generic store layer

The workbook is one document holding named sheets.  A sheet is either
readable (`ok rows`) or unreadable (`corrupt`, standing for any content on
which `pd.read_excel` raises).  The document itself may be absent
(`Document := Option Workbook`).  Cell values are strings, numbers, or
booleans, matching what the app stores. -/

inductive Val where
  | str (s : String)
  | num (q : Rat)
  | bool (b : Bool)
deriving Repr, DecidableEq

/-- A row as the app supplies it: an ordered association of column names to
values (a Python dict in source order). -/
abbrev Row := List (String × Val)

inductive SheetData where
  | ok (rows : List Row)
  | corrupt
deriving Repr, DecidableEq

abbrev Workbook := List (String × SheetData)

abbrev Document := Option Workbook

/-- The seven sheet names created by `ensure_workbook` (src/index.py:22-30). -/
def sheetNames : List String :=
  ["companies", "engineers", "sites", "assignments", "fund_allocations",
   "expenses", "audit_log"]

/-- The freshly initialised workbook: every sheet present and empty
(header-only dataframes, src/index.py:22-33). -/
def emptyWorkbook : Workbook := sheetNames.map (fun n => (n, SheetData.ok []))

/-- Model of `ensure_workbook` (src/index.py:19-33): if the backing document does not
exist, create it with all seven sheets empty; otherwise leave it alone. -/
def ensure_workbook : Document → Workbook
  | none => emptyWorkbook
  | some wb => wb

/-- Look up a sheet by name (first occurrence). -/
def sheetLookup : Workbook → String → Option SheetData
  | [], _ => none
  | (n, d) :: rest, name => if n == name then some d else sheetLookup rest name

/-- Replace the named sheet's contents, leaving every other sheet untouched;
add the sheet if absent.  Models `pd.ExcelWriter(mode="a",
if_sheet_exists="replace")` writing one sheet (src/index.py:48-49). -/
def setSheet : Workbook → String → List Row → Workbook
  | [], name, rows => [(name, SheetData.ok rows)]
  | (n, d) :: rest, name, rows =>
      if n == name then (n, SheetData.ok rows) :: rest
      else (n, d) :: setSheet rest name rows

/-- Model of `read_sheet` (src/index.py:35-40): ensure the workbook exists, then try
to read the named sheet; any failure (missing sheet, corrupt content) is
caught and an empty dataframe is returned. -/
def read_sheet (doc : Document) (name : String) : List Row :=
  match sheetLookup (ensure_workbook doc) name with
  | some (SheetData.ok rows) => rows
  | some SheetData.corrupt => []
  | none => []

/-- The observable outcome of `write_sheet`: the resulting document, whether
the recoverable lock-timeout error was displayed to the caller
(`st.error`, src/index.py:51), and whether the file lock is still held when
the call returns (the `with lock:` context manager releases it on every
exit path, and on `Timeout` it was never acquired). -/
structure WriteOutcome where
  doc : Document
  errorShown : Bool
  lockHeldAfter : Bool
deriving Repr, DecidableEq

/-- Model of `write_sheet` (src/index.py:42-51).  `lockOk` records whether the
exclusive file lock is acquired within the timeout.  On acquisition the
named sheet is replaced and the lock released; on `Timeout` no sheet is
written, the recoverable error is shown, and the lock (never acquired) is
not held.  `ensure_workbook` runs first in both cases. -/
def write_sheet (lockOk : Bool) (doc : Document) (name : String)
    (rows : List Row) : WriteOutcome :=
  let wb := ensure_workbook doc
  if lockOk then
    { doc := some (setSheet wb name rows), errorShown := false,
      lockHeldAfter := false }
  else
    { doc := some wb, errorShown := true, lockHeldAfter := false }

/-- Model of `append_row` (src/index.py:53-56): read the table, append one row,
write the table back. -/
def append_row (lockOk : Bool) (doc : Document) (name : String)
    (row : Row) : WriteOutcome :=
  let df := read_sheet doc name
  write_sheet lockOk doc name (df ++ [row])

/-! ## Typed data model

The six tables the pages touch, as fixed-shape records mirroring the column
schemas of `ensure_workbook` (src/index.py:23-29).  (`companies` is created
but never written by any page.) -/

structure Engineer where
  engineer_id : String
  name : String
  role : String
  phone : String
  email : String
  active : Bool
deriving Repr, DecidableEq, Inhabited

structure Site where
  site_id : String
  site_name : String
  location : String
  start_date : String
  end_date : String
  status : String
deriving Repr, DecidableEq, Inhabited

structure Assignment where
  assignment_id : String
  engineer_id : String
  site_id : String
  assigned_by : String
  assigned_on : String
  is_active : Bool
deriving Repr, DecidableEq, Inhabited

structure FundAllocation where
  allocation_id : String
  engineer_id : String
  site_id : String
  amount_allocated : Rat
  date_allocated : String
  balance_remaining : Rat
  notes : String
deriving Repr, DecidableEq, Inhabited

structure Expense where
  expense_id : String
  site_id : String
  engineer_id : String
  expense_type : String
  amount : Rat
  date : String
  payment_mode : String
  receipt_path : String
  approved_by : String
  approved : Bool
  notes : String
deriving Repr, DecidableEq, Inhabited

structure AuditEntry where
  log_id : String
  action : String
  object_type : String
  object_id : String
  user : String
  timestamp : String
  details : String
deriving Repr, DecidableEq, Inhabited

/-- The app's tables as loaded by the `read_sheet` calls at the top of the
script (src/index.py:93-97) plus the audit log. -/
structure AppState where
  engineers : List Engineer
  sites : List Site
  assignments : List Assignment
  fund_allocations : List FundAllocation
  expenses : List Expense
  audit_log : List AuditEntry
deriving Repr, DecidableEq, Inhabited

/-! ## Allocation reconciler (Record Expense page, src/index.py:204-210) -/

/-- The reconciler's row filter (src/index.py:206): `engineer_id` matches,
`site_id` matches, and `balance_remaining > 0`. -/
def allocMatches (eng site : String) (a : FundAllocation) : Bool :=
  a.engineer_id == eng && a.site_id == site && decide (0 < a.balance_remaining)

/-- The row actually debited: `alloc_df[mask].index[0]` picks the first
index satisfying the mask (src/index.py:208). -/
def firstMatchIdx (eng site : String) : List FundAllocation → Option Nat
  | [] => none
  | a :: rest =>
      if allocMatches eng site a then some 0
      else (firstMatchIdx eng site rest).map (· + 1)

/-- The balance update at the selected row (src/index.py:209): subtract the
expense amount unconditionally, no floor check. -/
def debit (amount : Rat) (a : FundAllocation) : FundAllocation :=
  { a with balance_remaining := a.balance_remaining - amount }

/-- The reconciler (src/index.py:206-210): debit the first row satisfying
the mask; if no row matches, leave the table untouched (the `write_sheet`
call is skipped). -/
def reconcile (eng site : String) (amount : Rat) :
    List FundAllocation → List FundAllocation
  | [] => []
  | a :: rest =>
      if allocMatches eng site a then debit amount a :: rest
      else a :: reconcile eng site amount rest

/-- Recording a batch of expenses `(engineer, site, amount)` one after
another, each routed through the reconciler. -/
def recordAll : List (String × String × Rat) → List FundAllocation →
    List FundAllocation
  | [], allocs => allocs
  | (eng, site, amt) :: rest, allocs =>
      recordAll rest (reconcile eng site amt allocs)

/-- The amounts among a batch of expenses that the reconciler routes to the
allocation at position `m`, in the order they are debited. -/
def routedTo (m : Nat) : List (String × String × Rat) → List FundAllocation →
    List Rat
  | [], _ => []
  | (eng, site, amt) :: rest, allocs =>
      let next := routedTo m rest (reconcile eng site amt allocs)
      if firstMatchIdx eng site allocs == some m then amt :: next else next

/-! ## Actions

Each form handler is a function on `AppState`.  `uuid4()` and
`datetime.utcnow()` values are explicit parameters (`freshId`, `now`, ...).
Every `write_sheet` call can fail to acquire the lock; a `Bool` per write
records whether it succeeded (on failure the table is left as it was and
execution continues, since `write_sheet` swallows the `Timeout`).  The
audit append (`log`, src/index.py:58-67) is issued last in every handler,
after the primary write calls, and is gated only by its own lock flag. -/

/-- Model of `log` (src/index.py:58-67): build an `AuditEntry` with a fresh id and
the current UTC timestamp and append it to `audit_log`.  `okA` is the lock
flag of the underlying `append_row` write. -/
def logAction (okA : Bool) (logId now : String)
    (action objType objId user details : String) (st : AppState) : AppState :=
  if okA then
    { st with audit_log := st.audit_log ++
        [{ log_id := logId, action := action, object_type := objType,
           object_id := objId, user := user, timestamp := now,
           details := details }] }
  else st

/-- Allocate Funds handler (src/index.py:131-144): append one
`fund_allocations` row with `balance_remaining` starting at the allocated
amount, then log. -/
def allocateFunds (okW okA : Bool) (allocationId : String)
    (engChoice siteChoice : String) (amount : Rat) (today notes : String)
    (actor logId now : String) (st : AppState) : AppState :=
  let row : FundAllocation :=
    { allocation_id := allocationId, engineer_id := engChoice,
      site_id := siteChoice, amount_allocated := amount,
      date_allocated := today, balance_remaining := amount, notes := notes }
  let st1 := if okW then
    { st with fund_allocations := st.fund_allocations ++ [row] } else st
  logAction okA logId now "allocate_funds" "fund_allocations" allocationId
    actor (reprStr row) st1

/-- Assign Engineer handler (src/index.py:154-166): append one
`assignments` row, then log. -/
def assignEngineer (okW okA : Bool) (assignmentId : String)
    (engChoice siteChoice assignedBy : String) (today : String)
    (actor logId now : String) (st : AppState) : AppState :=
  let row : Assignment :=
    { assignment_id := assignmentId, engineer_id := engChoice,
      site_id := siteChoice, assigned_by := assignedBy, assigned_on := today,
      is_active := true }
  let st1 := if okW then
    { st with assignments := st.assignments ++ [row] } else st
  logAction okA logId now "assign_engineer" "assignments" assignmentId actor
    (reprStr row) st1

/-- The expense row built by the Record Expense handler
(src/index.py:190-202): `approved_by` empty and `approved` False at
creation. -/
def mkExpenseRow (expenseId siteChoice engChoice expType : String)
    (amount : Rat) (date payMode receiptPath notes : String) : Expense :=
  { expense_id := expenseId, site_id := siteChoice, engineer_id := engChoice,
    expense_type := expType, amount := amount, date := date,
    payment_mode := payMode, receipt_path := receiptPath, approved_by := "",
    approved := false, notes := notes }

/-- Record Expense handler (src/index.py:181-212): append the expense row
(write gated by `okE`), re-read `fund_allocations`, run the first-fit
reconciler and persist it only when a matching row exists (write gated by
`okAl`), then log exactly once.  No error is raised in any branch. -/
def recordExpense (okE okAl okA : Bool) (expenseId : String)
    (siteChoice engChoice expType : String) (amount : Rat)
    (date payMode receiptPath notes : String) (actor logId now : String)
    (st : AppState) : AppState :=
  let row := mkExpenseRow expenseId siteChoice engChoice expType amount date
    payMode receiptPath notes
  let st1 := if okE then { st with expenses := st.expenses ++ [row] } else st
  let st2 :=
    if (firstMatchIdx engChoice siteChoice st1.fund_allocations).isSome then
      if okAl then
        { st1 with fund_allocations :=
            reconcile engChoice siteChoice amount st1.fund_allocations }
      else st1
    else st1
  logAction okA logId now "create_expense" "expenses" expenseId actor
    (reprStr row) st2

/-- The Approvals page's pending set (src/index.py:217):
`expenses_df[expenses_df["approved"] != True]`. -/
def pendingExpenses (expenses : List Expense) : List Expense :=
  expenses.filter (fun e => !e.approved)

/-- The shared column update of both Approvals handlers
(src/index.py:229-230, 236-237): set `approved` and `approved_by` on every
row whose `expense_id` matches. -/
def setApproved (expenses : List Expense) (eid actor : String)
    (value : Bool) : List Expense :=
  expenses.map (fun e =>
    if e.expense_id == eid then { e with approved := value, approved_by := actor }
    else e)

/-- Approve handler (src/index.py:228-234): set `approved := True` and
`approved_by := actor`, persist the expenses table, then log.  The button
is rendered only for rows of the pending set. -/
def approveExpense (okW okA : Bool) (eid actor logId now : String)
    (st : AppState) : AppState :=
  let st1 := if okW then
    { st with expenses := setApproved st.expenses eid actor true } else st
  logAction okA logId now "approve_expense" "expenses" eid actor "approved" st1

/-- Reject handler (src/index.py:235-241): set `approved := False` and
`approved_by := actor`, persist the expenses table, then log.  The button
is rendered only for rows of the pending set. -/
def rejectExpense (okW okA : Bool) (eid actor logId now : String)
    (st : AppState) : AppState :=
  let st1 := if okW then
    { st with expenses := setApproved st.expenses eid actor false } else st
  logAction okA logId now "reject_expense" "expenses" eid actor "rejected" st1

/-- Admin Add Engineer handler (src/index.py:253-258). -/
def addEngineer (okW okA : Bool) (newId ename erole ephone eemail : String)
    (actor logId now : String) (st : AppState) : AppState :=
  let row : Engineer :=
    { engineer_id := newId, name := ename, role := erole, phone := ephone,
      email := eemail, active := true }
  let st1 := if okW then
    { st with engineers := st.engineers ++ [row] } else st
  logAction okA logId now "create_engineer" "engineers" newId actor ename st1

/-- Admin Add Site handler (src/index.py:266-270). -/
def addSite (okW okA : Bool) (sid sname slocation sstart : String)
    (actor logId now : String) (st : AppState) : AppState :=
  let row : Site :=
    { site_id := sid, site_name := sname, location := slocation,
      start_date := sstart, end_date := "", status := "Ongoing" }
  let st1 := if okW then { st with sites := st.sites ++ [row] } else st
  logAction okA logId now "create_site" "sites" sid actor sname st1

/-! ## Dashboard views (src/index.py:103-119) -/

/-- Sum of the amounts of the expenses booked to a given site (the
`groupby("site_id").agg(total_spent=("amount","sum"))` entry for that site;
a site with no expense row gets `NaN` from the left merge, turned into `0`
by `fillna(0)` — that is, an empty sum). -/
def siteTotalSpent (expenses : List Expense) (sid : String) : Rat :=
  ((expenses.filter (fun e => e.site_id == sid)).map (fun e => e.amount)).sum

/-- One displayed row of the Site Summary table (src/index.py:110). -/
structure SiteSummaryRow where
  site_id : String
  site_name : String
  location : String
  status : String
  total_spent : Rat
deriving Repr, DecidableEq

/-- Site Summary (src/index.py:107-110): expenses grouped by site, left
joined onto the site list, missing sums defaulted to zero. -/
def siteSummary (sites : List Site) (expenses : List Expense) :
    List SiteSummaryRow :=
  sites.map (fun s =>
    { site_id := s.site_id, site_name := s.site_name, location := s.location,
      status := s.status, total_spent := siteTotalSpent expenses s.site_id })

/-- Sum of the amounts of the expenses booked by a given engineer. -/
def engTotalSpent (expenses : List Expense) (eid : String) : Rat :=
  ((expenses.filter (fun e => e.engineer_id == eid)).map (fun e => e.amount)).sum

/-- Sum of `amount_allocated` over an engineer's allocations. -/
def engTotalAlloc (allocs : List FundAllocation) (eid : String) : Rat :=
  ((allocs.filter (fun a => a.engineer_id == eid)).map
    (fun a => a.amount_allocated)).sum

/-- Sum of `balance_remaining` over an engineer's allocations. -/
def engBalance (allocs : List FundAllocation) (eid : String) : Rat :=
  ((allocs.filter (fun a => a.engineer_id == eid)).map
    (fun a => a.balance_remaining)).sum

/-- One displayed row of the Engineer Summary table (src/index.py:119). -/
structure EngSummaryRow where
  engineer_id : String
  name : String
  role : String
  total_alloc : Rat
  total_spent : Rat
  balance : Rat
deriving Repr, DecidableEq

/-- Engineer Summary (src/index.py:113-119): expense sums and allocation
sums grouped by engineer, left joined onto the engineer list, missing sums
defaulted to zero by `fillna(0)`. -/
def engSummary (engineers : List Engineer) (expenses : List Expense)
    (allocs : List FundAllocation) : List EngSummaryRow :=
  engineers.map (fun e =>
    { engineer_id := e.engineer_id, name := e.name, role := e.role,
      total_alloc := engTotalAlloc allocs e.engineer_id,
      total_spent := engTotalSpent expenses e.engineer_id,
      balance := engBalance allocs e.engineer_id })

/-! ## Reconciler lemmas -/

/-- If some row at position `i` satisfies the reconciler's mask, then the
reconciler rewrites the table at the first mask-satisfying position `k`
(and `k ≤ i`), replacing that row by its debited copy. -/
theorem reconcile_set_first (eng site : String) (amt : Rat)
    (allocs : List FundAllocation) (i : Nat) (ai : FundAllocation)
    (h : allocs[i]? = some ai) (hm : allocMatches eng site ai = true) :
    ∃ k ak, k ≤ i ∧ firstMatchIdx eng site allocs = some k ∧
      allocs[k]? = some ak ∧ allocMatches eng site ak = true ∧
      reconcile eng site amt allocs = allocs.set k (debit amt ak) := by
  induction allocs generalizing i with
  | nil => simp at h
  | cons a rest ih =>
      by_cases ha : allocMatches eng site a
      · exact ⟨0, a, Nat.zero_le i, by simp [firstMatchIdx, ha], by simp, ha,
          by simp [reconcile, ha]⟩
      · cases i with
        | zero =>
            simp only [List.getElem?_cons_zero, Option.some.injEq] at h
            subst h
            exact absurd hm (by simp [ha])
        | succ i2 =>
            have h2 : rest[i2]? = some ai := by simpa using h
            obtain ⟨k, ak, hk, hfmi, hget, hmk, heq⟩ := ih i2 h2
            refine ⟨k + 1, ak, Nat.succ_le_succ hk, ?_, by simpa using hget,
              hmk, ?_⟩
            · simp [firstMatchIdx, ha, hfmi]
            · simp [reconcile, ha, heq]

/-- Pointwise effect of the reconciler: the row at the first matching
position is debited, every other row is returned unchanged. -/
theorem reconcile_getElem (eng site : String) (amt : Rat)
    (allocs : List FundAllocation) (m : Nat) :
    (reconcile eng site amt allocs)[m]? =
      if firstMatchIdx eng site allocs = some m then
        (allocs[m]?).map (debit amt)
      else allocs[m]? := by
  induction allocs generalizing m with
  | nil => simp [reconcile, firstMatchIdx]
  | cons a rest ih =>
      by_cases ha : allocMatches eng site a
      · cases m with
        | zero => simp [reconcile, firstMatchIdx, ha]
        | succ m2 => simp [reconcile, firstMatchIdx, ha]
      · cases m with
        | zero => simp [reconcile, firstMatchIdx, ha]
        | succ m2 =>
            have := ih m2
            by_cases hf : firstMatchIdx eng site rest = some m2
            · simp [reconcile, firstMatchIdx, ha, hf] at this ⊢
              exact this
            · have hne : (firstMatchIdx eng site rest).map (· + 1) ≠
                  some (m2 + 1) := by
                intro hcon
                rcases Option.map_eq_some'.mp hcon with ⟨v, hv, hv2⟩
                exact hf (by rw [hv, Nat.add_right_cancel hv2])
              simp [reconcile, firstMatchIdx, ha, hf, hne] at this ⊢
              exact this

/-- The reconciler never adds or removes rows. -/
theorem reconcile_length (eng site : String) (amt : Rat)
    (allocs : List FundAllocation) :
    (reconcile eng site amt allocs).length = allocs.length := by
  induction allocs with
  | nil => rfl
  | cons a rest ih =>
      by_cases ha : allocMatches eng site a
      · simp [reconcile, ha]
      · simp [reconcile, ha, ih]

/-- Balance bookkeeping over a batch of recorded expenses: each
allocation's `amount_allocated` is untouched and its `balance_remaining`
drops by exactly the sum of the amounts the reconciler routed to it. -/
theorem recordAll_balance (m : Nat) (exps : List (String × String × Rat)) :
    ∀ (allocs : List FundAllocation) (a : FundAllocation),
      allocs[m]? = some a →
      ∃ b, (recordAll exps allocs)[m]? = some b ∧
        b.amount_allocated = a.amount_allocated ∧
        b.balance_remaining =
          a.balance_remaining - (routedTo m exps allocs).sum := by
  induction exps with
  | nil =>
      intro allocs a h
      exact ⟨a, by simpa [recordAll] using h, rfl, by simp [routedTo]⟩
  | cons es rest ih =>
      intro allocs a h
      obtain ⟨eng, site, amt⟩ := es
      have hpoint := reconcile_getElem eng site amt allocs m
      by_cases hf : firstMatchIdx eng site allocs = some m
      · rw [if_pos hf, h] at hpoint
        obtain ⟨b, hb, hba, hbb⟩ :=
          ih (reconcile eng site amt allocs) (debit amt a) (by simpa using hpoint)
        refine ⟨b, by simpa [recordAll] using hb, by simpa [debit] using hba, ?_⟩
        have hr : routedTo m ((eng, site, amt) :: rest) allocs =
            amt :: routedTo m rest (reconcile eng site amt allocs) := by
          simp [routedTo, hf]
        rw [hr, List.sum_cons]
        simp only [debit] at hbb
        rw [hbb, sub_sub]
      · rw [if_neg hf, h] at hpoint
        obtain ⟨b, hb, hba, hbb⟩ :=
          ih (reconcile eng site amt allocs) a (by simpa using hpoint)
        refine ⟨b, by simpa [recordAll] using hb, hba, ?_⟩
        have hr : routedTo m ((eng, site, amt) :: rest) allocs =
            routedTo m rest (reconcile eng site amt allocs) := by
          simp [routedTo, hf]
        rw [hr]
        exact hbb

/-- The reconciler's mask holds exactly when the engineer id matches, the
site id matches, and the remaining balance is positive. -/
theorem allocMatches_iff (eng site : String) (a : FundAllocation) :
    allocMatches eng site a = true ↔
      (a.engineer_id = eng ∧ a.site_id = site ∧ 0 < a.balance_remaining) := by
  simp [allocMatches, Bool.and_eq_true, beq_iff_eq, decide_eq_true_iff,
    and_assoc]

/-- If no row satisfies the mask, there is no first matching index. -/
theorem firstMatchIdx_eq_none (eng site : String)
    (l : List FundAllocation)
    (h : ∀ a ∈ l, allocMatches eng site a = false) :
    firstMatchIdx eng site l = none := by
  induction l with
  | nil => rfl
  | cons a rest ih =>
      have ha := h a (List.mem_cons_self a rest)
      have hr := ih (fun b hb => h b (List.mem_cons_of_mem a hb))
      simp [firstMatchIdx, ha, hr]

/-! ## Claim theorems -/

/-- C1: when an expense is recorded with an engineer id and a site id, the
reconciler selects among fund-allocation rows exactly those whose
`engineer_id` matches, whose `site_id` matches, and whose
`balance_remaining > 0` (first conjunct: the mask is exactly that triple),
and debits the FIRST such row in table order: for every pair of matching
allocations with positive balances, a row no later than the earlier of the
pair is debited — the table is rewritten only at the first matching index
`k ≤ i < j` — and the later row `j` is returned unchanged, regardless of
balance size or allocation date (second conjunct, quantified over all
tables, amounts, balances and dates). -/
theorem c1_first_fit_selection :
    (∀ (eng site : String) (a : FundAllocation),
        allocMatches eng site a = true ↔
          (a.engineer_id = eng ∧ a.site_id = site ∧ 0 < a.balance_remaining)) ∧
    (∀ (eng site : String) (amt : Rat) (allocs : List FundAllocation)
        (i j : Nat) (ai aj : FundAllocation),
        i < j → allocs[i]? = some ai → allocs[j]? = some aj →
        allocMatches eng site ai = true → allocMatches eng site aj = true →
        ∃ k ak, k ≤ i ∧ firstMatchIdx eng site allocs = some k ∧
          allocs[k]? = some ak ∧ allocMatches eng site ak = true ∧
          reconcile eng site amt allocs =
            allocs.set k
              { ak with balance_remaining := ak.balance_remaining - amt } ∧
          (reconcile eng site amt allocs)[j]? = some aj) := by
  constructor
  · exact allocMatches_iff
  · intro eng site amt allocs i j ai aj hij hi hj hmi hmj
    obtain ⟨k, ak, hk, hfmi, hget, hmk, heq⟩ :=
      reconcile_set_first eng site amt allocs i ai hi hmi
    refine ⟨k, ak, hk, hfmi, hget, hmk, ?_, ?_⟩
    · simpa [debit] using heq
    · rw [heq, List.getElem?_set_ne (Nat.ne_of_lt (lt_of_le_of_lt hk hij))]
      exact hj

/-- Witness for C1: two allocations for ("E1","S1"), the later one larger
and dated earlier; a 600 expense debits the first row and leaves the
second unchanged. -/
theorem c1_first_fit_selection_witness :
    ((0 : Nat) < 1) ∧
    (([⟨"A1", "E1", "S1", 500, "2024-02-01", 500, ""⟩,
       ⟨"A2", "E1", "S1", 900, "2024-01-01", 900, ""⟩] :
        List FundAllocation)[0]? =
      some ⟨"A1", "E1", "S1", 500, "2024-02-01", 500, ""⟩) ∧
    (([⟨"A1", "E1", "S1", 500, "2024-02-01", 500, ""⟩,
       ⟨"A2", "E1", "S1", 900, "2024-01-01", 900, ""⟩] :
        List FundAllocation)[1]? =
      some ⟨"A2", "E1", "S1", 900, "2024-01-01", 900, ""⟩) ∧
    allocMatches "E1" "S1" ⟨"A1", "E1", "S1", 500, "2024-02-01", 500, ""⟩ =
      true ∧
    allocMatches "E1" "S1" ⟨"A2", "E1", "S1", 900, "2024-01-01", 900, ""⟩ =
      true ∧
    (∃ k ak, k ≤ 0 ∧
      firstMatchIdx "E1" "S1"
        [⟨"A1", "E1", "S1", 500, "2024-02-01", 500, ""⟩,
         ⟨"A2", "E1", "S1", 900, "2024-01-01", 900, ""⟩] = some k ∧
      ([⟨"A1", "E1", "S1", 500, "2024-02-01", 500, ""⟩,
        ⟨"A2", "E1", "S1", 900, "2024-01-01", 900, ""⟩] :
         List FundAllocation)[k]? = some ak ∧
      allocMatches "E1" "S1" ak = true ∧
      reconcile "E1" "S1" 600
        [⟨"A1", "E1", "S1", 500, "2024-02-01", 500, ""⟩,
         ⟨"A2", "E1", "S1", 900, "2024-01-01", 900, ""⟩] =
        List.set
          [⟨"A1", "E1", "S1", 500, "2024-02-01", 500, ""⟩,
           ⟨"A2", "E1", "S1", 900, "2024-01-01", 900, ""⟩] k
          { ak with balance_remaining := ak.balance_remaining - 600 } ∧
      (reconcile "E1" "S1" 600
        [⟨"A1", "E1", "S1", 500, "2024-02-01", 500, ""⟩,
         ⟨"A2", "E1", "S1", 900, "2024-01-01", 900, ""⟩])[1]? =
        some ⟨"A2", "E1", "S1", 900, "2024-01-01", 900, ""⟩) :=
  ⟨by decide, by decide, by decide, by decide, by decide,
    c1_first_fit_selection.2 "E1" "S1" 600
      [⟨"A1", "E1", "S1", 500, "2024-02-01", 500, ""⟩,
       ⟨"A2", "E1", "S1", 900, "2024-01-01", 900, ""⟩] 0 1
      ⟨"A1", "E1", "S1", 500, "2024-02-01", 500, ""⟩
      ⟨"A2", "E1", "S1", 900, "2024-01-01", 900, ""⟩
      (by decide) (by decide) (by decide) (by decide) (by decide)⟩

/-- C2: when a candidate allocation exists (it is the reconciler's first
match), its `balance_remaining` is decremented by the expense amount
unconditionally — no floor check, the new balance is
`balance_remaining - amount` whatever its sign (first conjunct); after any
batch of debits, an allocation whose balance started at
`amount_allocated` holds `amount_allocated` minus the sum of the amounts
routed to it (second conjunct); and in the concrete two-500-allocation
scenario a 600 expense leaves the first allocation at -100 and the second
at 500 (third conjunct). -/
theorem c2_unconditional_debit_balance :
    (∀ (eng site : String) (amt : Rat) (allocs : List FundAllocation)
        (m : Nat) (a : FundAllocation),
        allocs[m]? = some a → firstMatchIdx eng site allocs = some m →
        (reconcile eng site amt allocs)[m]? =
          some { a with balance_remaining := a.balance_remaining - amt }) ∧
    (∀ (exps : List (String × String × Rat)) (allocs : List FundAllocation)
        (m : Nat) (a : FundAllocation),
        allocs[m]? = some a → a.balance_remaining = a.amount_allocated →
        ∃ b, (recordAll exps allocs)[m]? = some b ∧
          b.amount_allocated = a.amount_allocated ∧
          b.balance_remaining =
            a.amount_allocated - (routedTo m exps allocs).sum) ∧
    recordAll [("E1", "S1", 600)]
        [⟨"B1", "E1", "S1", 500, "2024-01-01", 500, ""⟩,
         ⟨"B2", "E1", "S1", 500, "2024-01-02", 500, ""⟩] =
      [⟨"B1", "E1", "S1", 500, "2024-01-01", -100, ""⟩,
       ⟨"B2", "E1", "S1", 500, "2024-01-02", 500, ""⟩] := by
  refine ⟨?_, ?_, ?_⟩
  · intro eng site amt allocs m a hget hfmi
    have := reconcile_getElem eng site amt allocs m
    rw [if_pos hfmi, hget] at this
    simpa [debit] using this
  · intro exps allocs m a hget hbal
    obtain ⟨b, hb, hba, hbb⟩ := recordAll_balance m exps allocs a hget
    exact ⟨b, hb, hba, by rw [hbb, hbal]⟩
  · norm_num [recordAll, reconcile, allocMatches, debit]

/-- Witness for C2: both quantified conjuncts applied to the concrete
two-allocation scenario. -/
theorem c2_unconditional_debit_balance_witness :
    (([⟨"B1", "E1", "S1", 500, "2024-01-01", 500, ""⟩,
       ⟨"B2", "E1", "S1", 500, "2024-01-02", 500, ""⟩] :
        List FundAllocation)[0]? =
      some ⟨"B1", "E1", "S1", 500, "2024-01-01", 500, ""⟩) ∧
    firstMatchIdx "E1" "S1"
      [⟨"B1", "E1", "S1", 500, "2024-01-01", 500, ""⟩,
       ⟨"B2", "E1", "S1", 500, "2024-01-02", 500, ""⟩] = some 0 ∧
    (reconcile "E1" "S1" 600
      [⟨"B1", "E1", "S1", 500, "2024-01-01", 500, ""⟩,
       ⟨"B2", "E1", "S1", 500, "2024-01-02", 500, ""⟩])[0]? =
      some ⟨"B1", "E1", "S1", 500, "2024-01-01", 500 - 600, ""⟩ ∧
    ((⟨"B1", "E1", "S1", 500, "2024-01-01", 500, ""⟩ :
        FundAllocation).balance_remaining =
      (⟨"B1", "E1", "S1", 500, "2024-01-01", 500, ""⟩ :
        FundAllocation).amount_allocated) ∧
    (∃ b, (recordAll [("E1", "S1", 600)]
        [⟨"B1", "E1", "S1", 500, "2024-01-01", 500, ""⟩,
         ⟨"B2", "E1", "S1", 500, "2024-01-02", 500, ""⟩])[0]? = some b ∧
      b.amount_allocated = (500 : Rat) ∧
      b.balance_remaining = 500 -
        (routedTo 0 [("E1", "S1", 600)]
          [⟨"B1", "E1", "S1", 500, "2024-01-01", 500, ""⟩,
           ⟨"B2", "E1", "S1", 500, "2024-01-02", 500, ""⟩]).sum) :=
  ⟨by decide, by decide,
    c2_unconditional_debit_balance.1 "E1" "S1" 600
      [⟨"B1", "E1", "S1", 500, "2024-01-01", 500, ""⟩,
       ⟨"B2", "E1", "S1", 500, "2024-01-02", 500, ""⟩] 0
      ⟨"B1", "E1", "S1", 500, "2024-01-01", 500, ""⟩ (by decide) (by decide),
    by decide,
    c2_unconditional_debit_balance.2.1 [("E1", "S1", 600)]
      [⟨"B1", "E1", "S1", 500, "2024-01-01", 500, ""⟩,
       ⟨"B2", "E1", "S1", 500, "2024-01-02", 500, ""⟩] 0
      ⟨"B1", "E1", "S1", 500, "2024-01-01", 500, ""⟩ (by decide) (by decide)⟩

/-- C3: recording an expense for an (engineer, site) pair with no matching
allocation (no row with matching `engineer_id`, matching `site_id` and
`balance_remaining > 0`) still creates the expense row, leaves the whole
`fund_allocations` table — hence every balance — unchanged, and raises no
error: the handler is a total function whose only branches are the skipped
`write_sheet` (the mask produced no candidate) and the audit append. -/
theorem c3_no_match_silent_noop (st : AppState)
    (expenseId siteChoice engChoice expType : String) (amount : Rat)
    (date payMode receiptPath notes actor logId now : String)
    (h : ∀ a ∈ st.fund_allocations,
      ¬(a.engineer_id = engChoice ∧ a.site_id = siteChoice ∧
        0 < a.balance_remaining)) :
    (recordExpense true true true expenseId siteChoice engChoice expType
        amount date payMode receiptPath notes actor logId now st).expenses =
      st.expenses ++ [mkExpenseRow expenseId siteChoice engChoice expType
        amount date payMode receiptPath notes] ∧
    (recordExpense true true true expenseId siteChoice engChoice expType
        amount date payMode receiptPath notes actor logId now
        st).fund_allocations = st.fund_allocations := by
  have hm : ∀ a ∈ st.fund_allocations,
      allocMatches engChoice siteChoice a = false := by
    intro a ha
    cases hb : allocMatches engChoice siteChoice a with
    | false => rfl
    | true =>
        exact absurd ((allocMatches_iff engChoice siteChoice a).mp hb) (h a ha)
  have hfmi := firstMatchIdx_eq_none engChoice siteChoice
    st.fund_allocations hm
  constructor <;> simp [recordExpense, logAction, hfmi]

/-- Witness for C3: a table holding one allocation for a different
engineer; recording an expense for ("E1","S1") appends the expense row and
leaves the allocation table untouched. -/
theorem c3_no_match_silent_noop_witness :
    (∀ a ∈ (AppState.mk [] [] [] [⟨"A1", "E9", "S1", 100, "2024-01-01",
        100, ""⟩] [] []).fund_allocations,
      ¬(a.engineer_id = "E1" ∧ a.site_id = "S1" ∧
        0 < a.balance_remaining)) ∧
    ((recordExpense true true true "X1" "S1" "E1" "Material" 300
        "2024-03-01" "Cash" "" "" "alice" "L1" "t1"
        (AppState.mk [] [] [] [⟨"A1", "E9", "S1", 100, "2024-01-01",
          100, ""⟩] [] [])).expenses =
      (AppState.mk [] [] [] [⟨"A1", "E9", "S1", 100, "2024-01-01",
        100, ""⟩] [] []).expenses ++
        [mkExpenseRow "X1" "S1" "E1" "Material" 300 "2024-03-01" "Cash"
          "" ""] ∧
    (recordExpense true true true "X1" "S1" "E1" "Material" 300
        "2024-03-01" "Cash" "" "" "alice" "L1" "t1"
        (AppState.mk [] [] [] [⟨"A1", "E9", "S1", 100, "2024-01-01",
          100, ""⟩] [] [])).fund_allocations =
      (AppState.mk [] [] [] [⟨"A1", "E9", "S1", 100, "2024-01-01",
        100, ""⟩] [] []).fund_allocations) :=
  ⟨by decide,
    c3_no_match_silent_noop
      (AppState.mk [] [] [] [⟨"A1", "E9", "S1", 100, "2024-01-01", 100, ""⟩]
        [] [])
      "X1" "S1" "E1" "Material" 300 "2024-03-01" "Cash" "" "" "alice" "L1"
      "t1" (by decide)⟩

/-- C8: the Dashboard summaries are pure functions of the tables (they are
plain Lean functions over the in-memory lists; no state is touched), and
over zero expenses and zero allocations they produce, for every existing
site and every existing engineer, a row whose totals are all 0 — the empty
sum left by the `fillna(0)` default — rather than failing. -/
theorem c8_empty_table_rollups (sites : List Site)
    (engineers : List Engineer) :
    siteSummary sites [] = sites.map (fun s =>
      { site_id := s.site_id, site_name := s.site_name,
        location := s.location, status := s.status, total_spent := 0 }) ∧
    engSummary engineers [] [] = engineers.map (fun e =>
      { engineer_id := e.engineer_id, name := e.name, role := e.role,
        total_alloc := 0, total_spent := 0, balance := 0 }) := by
  constructor
  · simp [siteSummary, siteTotalSpent]
  · simp [engSummary, engTotalSpent, engTotalAlloc, engBalance]

/-- Counterexample to C4: `approved` is created as `False` (not a distinct
pending value), and the Approvals page offers its buttons for every row
with `approved != True` (src/index.py:217), so a rejected expense is still
actionable.  Concretely: the freshly created expense X1 is in the pending
set; after Bob rejects it, `approved = false`, `approved_by = "Bob"` and
the row is still in the pending set; Alice can then approve it, giving
`approved = true`, `approved_by = "Alice"` — a false→true transition, and
a second transition after the reject, both of which the claim rules
out. -/
theorem c4_false_to_true_counterexample :
    (mkExpenseRow "X1" "S1" "E1" "Material" 100 "2024-03-01" "Cash" "" ""
      ∈ pendingExpenses
        [mkExpenseRow "X1" "S1" "E1" "Material" 100 "2024-03-01" "Cash" ""
          ""]) ∧
    ((rejectExpense true true "X1" "Bob" "L1" "t1"
        (AppState.mk [] [] [] []
          [mkExpenseRow "X1" "S1" "E1" "Material" 100 "2024-03-01" "Cash"
            "" ""] [])).expenses =
      [{ mkExpenseRow "X1" "S1" "E1" "Material" 100 "2024-03-01" "Cash" ""
          "" with approved := false, approved_by := "Bob" }]) ∧
    ({ mkExpenseRow "X1" "S1" "E1" "Material" 100 "2024-03-01" "Cash" "" ""
        with approved := false, approved_by := "Bob" }
      ∈ pendingExpenses
        (rejectExpense true true "X1" "Bob" "L1" "t1"
          (AppState.mk [] [] [] []
            [mkExpenseRow "X1" "S1" "E1" "Material" 100 "2024-03-01" "Cash"
              "" ""] [])).expenses) ∧
    ((approveExpense true true "X1" "Alice" "L2" "t2"
        (rejectExpense true true "X1" "Bob" "L1" "t1"
          (AppState.mk [] [] [] []
            [mkExpenseRow "X1" "S1" "E1" "Material" 100 "2024-03-01" "Cash"
              "" ""] []))).expenses =
      [{ mkExpenseRow "X1" "S1" "E1" "Material" 100 "2024-03-01" "Cash" ""
          "" with approved := true, approved_by := "Alice" }]) := by
  refine ⟨?_, ?_, ?_, ?_⟩ <;> decide

/-- C4 as amended: an expense is created with `approved = false` and
`approved_by` empty; the Approvals page's pending set is exactly the rows
with `approved = false`; the approve handler sets `approved := true`,
`approved_by := actor` on every row with the given id, the reject handler
sets `approved := false`, `approved_by := actor`; a rejected row still
satisfies the pending filter — so repeated rejections and a later
false→true approval are possible — while an approved row leaves the
pending set, so `approved = true` is terminal. -/
theorem c4_amended_approval_transitions :
    (∀ (expenseId siteChoice engChoice expType : String) (amount : Rat)
        (date payMode receiptPath notes : String),
        (mkExpenseRow expenseId siteChoice engChoice expType amount date
          payMode receiptPath notes).approved = false ∧
        (mkExpenseRow expenseId siteChoice engChoice expType amount date
          payMode receiptPath notes).approved_by = "") ∧
    (∀ (l : List Expense) (e : Expense),
        e ∈ pendingExpenses l ↔ e ∈ l ∧ e.approved = false) ∧
    (∀ (okA : Bool) (eid actor logId now : String) (st : AppState),
        (approveExpense true okA eid actor logId now st).expenses =
          setApproved st.expenses eid actor true ∧
        (rejectExpense true okA eid actor logId now st).expenses =
          setApproved st.expenses eid actor false) ∧
    (∀ (l : List Expense) (eid actor : String) (v : Bool) (m : Nat)
        (e : Expense), l[m]? = some e →
        (setApproved l eid actor v)[m]? =
          some (if e.expense_id == eid then
            { e with approved := v, approved_by := actor } else e)) ∧
    (∀ (e : Expense) (actor : String),
        ({ e with approved := false, approved_by := actor } :
          Expense).approved = false) ∧
    (∀ (l : List Expense) (e : Expense), e.approved = true →
        e ∉ pendingExpenses l) := by
  refine ⟨?_, ?_, ?_, ?_, ?_, ?_⟩
  · intro expenseId siteChoice engChoice expType amount date payMode
      receiptPath notes
    exact ⟨rfl, rfl⟩
  · intro l e
    simp [pendingExpenses, List.mem_filter, Bool.not_eq_true']
  · intro okA eid actor logId now st
    cases okA <;> exact ⟨rfl, rfl⟩
  · intro l eid actor v m e h
    simp [setApproved, List.getElem?_map, h]
  · intro e actor
    rfl
  · intro l e h hmem
    rw [pendingExpenses, List.mem_filter, h] at hmem
    simp at hmem

/-- Witness for the amended C4: the pointwise handler effect and the
pending-set facts applied to a concrete one-expense table. -/
theorem c4_amended_approval_transitions_witness :
    (([mkExpenseRow "X1" "S1" "E1" "Material" 100 "2024-03-01" "Cash" "" ""]
        : List Expense)[0]? =
      some (mkExpenseRow "X1" "S1" "E1" "Material" 100 "2024-03-01" "Cash"
        "" "")) ∧
    ((setApproved
        [mkExpenseRow "X1" "S1" "E1" "Material" 100 "2024-03-01" "Cash" ""
          ""] "X1" "Alice" true)[0]? =
      some (if (mkExpenseRow "X1" "S1" "E1" "Material" 100 "2024-03-01"
            "Cash" "" "").expense_id == "X1" then
        { mkExpenseRow "X1" "S1" "E1" "Material" 100 "2024-03-01" "Cash" ""
            "" with approved := true, approved_by := "Alice" }
        else mkExpenseRow "X1" "S1" "E1" "Material" 100 "2024-03-01" "Cash"
          "" "")) ∧
    (({ mkExpenseRow "X1" "S1" "E1" "Material" 100 "2024-03-01" "Cash" ""
        "" with approved := true, approved_by := "Alice" } :
          Expense).approved = true) ∧
    ({ mkExpenseRow "X1" "S1" "E1" "Material" 100 "2024-03-01" "Cash" "" ""
        with approved := true, approved_by := "Alice" } ∉
      pendingExpenses
        [{ mkExpenseRow "X1" "S1" "E1" "Material" 100 "2024-03-01" "Cash"
            "" "" with approved := true, approved_by := "Alice" }]) :=
  ⟨by decide,
    c4_amended_approval_transitions.2.2.2.1
      [mkExpenseRow "X1" "S1" "E1" "Material" 100 "2024-03-01" "Cash" "" ""]
      "X1" "Alice" true 0
      (mkExpenseRow "X1" "S1" "E1" "Material" 100 "2024-03-01" "Cash" "" "")
      (by decide),
    by decide,
    c4_amended_approval_transitions.2.2.2.2.2
      [{ mkExpenseRow "X1" "S1" "E1" "Material" 100 "2024-03-01" "Cash" ""
          "" with approved := true, approved_by := "Alice" }]
      { mkExpenseRow "X1" "S1" "E1" "Material" 100 "2024-03-01" "Cash" ""
          "" with approved := true, approved_by := "Alice" }
      (by decide)⟩

/-- Looking up any name in the freshly initialised workbook yields either
nothing or an empty sheet. -/
theorem sheetLookup_emptyWorkbook (name : String) :
    sheetLookup emptyWorkbook name = none ∨
      sheetLookup emptyWorkbook name = some (SheetData.ok []) := by
  have : ∀ l : List String,
      sheetLookup (l.map (fun n => (n, SheetData.ok []))) name = none ∨
        sheetLookup (l.map (fun n => (n, SheetData.ok []))) name =
          some (SheetData.ok []) := by
    intro l
    induction l with
    | nil => exact Or.inl rfl
    | cons n rest ih =>
        by_cases h : n == name
        · exact Or.inr (by simp [sheetLookup, h])
        · simpa [sheetLookup, h] using ih
  exact this sheetNames

/-- Reading any sheet of a missing document yields the empty table. -/
theorem read_sheet_none (name : String) : read_sheet none name = [] := by
  unfold read_sheet ensure_workbook
  rcases sheetLookup_emptyWorkbook name with h | h <;> simp [h]

/-- After `setSheet`, looking the written sheet up returns exactly the
written rows. -/
theorem sheetLookup_setSheet (wb : Workbook) (name : String)
    (rows : List Row) :
    sheetLookup (setSheet wb name rows) name = some (SheetData.ok rows) := by
  induction wb with
  | nil => simp [setSheet, sheetLookup]
  | cons p rest ih =>
      obtain ⟨n, d⟩ := p
      by_cases h : n == name
      · simp [setSheet, sheetLookup, h]
      · simp [setSheet, sheetLookup, h, ih]

/-- C5: if the document lock is not acquired within the timeout,
`write_sheet` performs no write — on an existing document the document is
returned unchanged, and in general every subsequent read observes exactly
what it observed before (no partial mutation; `ensure_workbook` may only
have materialised the canonical empty workbook for a missing document,
which reads identically) — and the failure is surfaced to the caller as
the recoverable retry message; whether or not the lock is acquired, it is
not held on any exit path (`with lock:` releases it, and on `Timeout` it
was never taken). -/
theorem c5_lock_timeout_no_write (doc : Document) (name : String)
    (rows : List Row) :
    (∀ d, doc = some d → (write_sheet false doc name rows).doc = some d) ∧
    (∀ n, read_sheet (write_sheet false doc name rows).doc n =
      read_sheet doc n) ∧
    (write_sheet false doc name rows).errorShown = true ∧
    (write_sheet false doc name rows).lockHeldAfter = false ∧
    (write_sheet true doc name rows).lockHeldAfter = false := by
  refine ⟨?_, ?_, rfl, rfl, rfl⟩
  · intro d h
    subst h
    rfl
  · intro n
    cases doc with
    | none => rfl
    | some wb => rfl

/-- Witness for C5: a lock timeout on a concrete one-sheet document leaves
it untouched. -/
theorem c5_lock_timeout_no_write_witness :
    ((some [("expenses", SheetData.ok [])] : Document) =
      some [("expenses", SheetData.ok [])]) ∧
    (write_sheet false (some [("expenses", SheetData.ok [])]) "expenses"
        [[("amount", Val.num 3)]]).doc =
      some [("expenses", SheetData.ok [])] :=
  ⟨rfl,
    (c5_lock_timeout_no_write (some [("expenses", SheetData.ok [])])
      "expenses" [[("amount", Val.num 3)]]).1
      [("expenses", SheetData.ok [])] rfl⟩

/-- C6: a read of an absent or unreadable table — missing document,
missing sheet, or corrupt sheet content (any content on which the pandas
read raises) — returns the empty table instead of propagating an error;
`read_sheet` is moreover a total function, so no case raises. -/
theorem c6_lenient_read (doc : Document) (name : String) :
    (doc = none → read_sheet doc name = []) ∧
    (∀ wb, doc = some wb → sheetLookup wb name = none →
      read_sheet doc name = []) ∧
    (∀ wb, doc = some wb → sheetLookup wb name = some SheetData.corrupt →
      read_sheet doc name = []) := by
  refine ⟨?_, ?_, ?_⟩
  · intro h
    subst h
    exact read_sheet_none name
  · intro wb h hlook
    subst h
    simp [read_sheet, ensure_workbook, hlook]
  · intro wb h hlook
    subst h
    simp [read_sheet, ensure_workbook, hlook]

/-- Witness for C6: all three failure shapes on concrete documents read as
empty. -/
theorem c6_lenient_read_witness :
    ((none : Document) = none ∧ read_sheet none "expenses" = []) ∧
    (sheetLookup [("sites", SheetData.ok [])] "expenses" = none ∧
      read_sheet (some [("sites", SheetData.ok [])]) "expenses" = []) ∧
    (sheetLookup [("expenses", SheetData.corrupt)] "expenses" =
        some SheetData.corrupt ∧
      read_sheet (some [("expenses", SheetData.corrupt)]) "expenses" = []) :=
  ⟨⟨rfl, (c6_lenient_read none "expenses").1 rfl⟩,
    ⟨by decide,
      (c6_lenient_read (some [("sites", SheetData.ok [])]) "expenses").2.1
        [("sites", SheetData.ok [])] rfl (by decide)⟩,
    ⟨by decide,
      (c6_lenient_read (some [("expenses", SheetData.corrupt)])
          "expenses").2.2
        [("expenses", SheetData.corrupt)] rfl (by decide)⟩⟩

/-- C7: a successful `write_sheet` immediately followed by `read_sheet`
returns exactly the written table content, and `append_row` followed by
`read_sheet` yields the old table plus the appended row — which is
therefore included with all its fields unchanged. -/
theorem c7_write_read_roundtrip (doc : Document) (name : String)
    (rows : List Row) (row : Row) :
    read_sheet (write_sheet true doc name rows).doc name = rows ∧
    read_sheet (append_row true doc name row).doc name =
      read_sheet doc name ++ [row] ∧
    row ∈ read_sheet (append_row true doc name row).doc name := by
  have hw : ∀ rs : List Row,
      read_sheet (write_sheet true doc name rs).doc name = rs := by
    intro rs
    show (match sheetLookup (setSheet (ensure_workbook doc) name rs) name
        with
      | some (SheetData.ok r) => r
      | some SheetData.corrupt => []
      | none => []) = rs
    rw [sheetLookup_setSheet]
  refine ⟨hw rows, hw _, ?_⟩
  rw [show read_sheet (append_row true doc name row).doc name =
    read_sheet doc name ++ [row] from hw _]
  exact List.mem_append_right _ (List.mem_singleton.mpr rfl)

/-- C9: every mutating action — fund allocation, engineer assignment,
expense creation, expense approval, expense rejection, engineer creation,
site creation — appends exactly one `AuditEntry`, carrying the fresh id
(`uuid4()`, passed as `logId`) and the UTC timestamp
(`datetime.utcnow().isoformat()`, passed as `now`).  In each handler the
`log` call is issued after the primary `write_sheet`/`append_row` calls,
and because `write_sheet` swallows its lock `Timeout`, the entry is
appended whatever the primary writes did: the primary lock flags (`okW`,
`okE`, `okAl`) are universally quantified below, while the audit append's
own write is taken to acquire the lock (flag `true`).  Expense creation
mutates both `expenses` and `fund_allocations` yet appends exactly one
entry. -/
theorem c9_one_audit_entry_per_action :
    (∀ (okW : Bool) (allocationId engChoice siteChoice : String)
        (amount : Rat) (today notes actor logId now : String)
        (st : AppState),
        ∃ d, (allocateFunds okW true allocationId engChoice siteChoice
            amount today notes actor logId now st).audit_log =
          st.audit_log ++ [⟨logId, "allocate_funds", "fund_allocations",
            allocationId, actor, now, d⟩]) ∧
    (∀ (okW : Bool)
        (assignmentId engChoice siteChoice assignedBy today actor logId
          now : String) (st : AppState),
        ∃ d, (assignEngineer okW true assignmentId engChoice siteChoice
            assignedBy today actor logId now st).audit_log =
          st.audit_log ++ [⟨logId, "assign_engineer", "assignments",
            assignmentId, actor, now, d⟩]) ∧
    (∀ (okE okAl : Bool) (expenseId siteChoice engChoice expType : String)
        (amount : Rat)
        (date payMode receiptPath notes actor logId now : String)
        (st : AppState),
        ∃ d, (recordExpense okE okAl true expenseId siteChoice engChoice
            expType amount date payMode receiptPath notes actor logId now
            st).audit_log =
          st.audit_log ++ [⟨logId, "create_expense", "expenses", expenseId,
            actor, now, d⟩]) ∧
    (∀ (okW : Bool) (eid actor logId now : String) (st : AppState),
        (approveExpense okW true eid actor logId now st).audit_log =
          st.audit_log ++ [⟨logId, "approve_expense", "expenses", eid,
            actor, now, "approved"⟩]) ∧
    (∀ (okW : Bool) (eid actor logId now : String) (st : AppState),
        (rejectExpense okW true eid actor logId now st).audit_log =
          st.audit_log ++ [⟨logId, "reject_expense", "expenses", eid,
            actor, now, "rejected"⟩]) ∧
    (∀ (okW : Bool) (newId ename erole ephone eemail actor logId now :
        String) (st : AppState),
        (addEngineer okW true newId ename erole ephone eemail actor logId
            now st).audit_log =
          st.audit_log ++ [⟨logId, "create_engineer", "engineers", newId,
            actor, now, ename⟩]) ∧
    (∀ (okW : Bool) (sid sname slocation sstart actor logId now : String)
        (st : AppState),
        (addSite okW true sid sname slocation sstart actor logId now
            st).audit_log =
          st.audit_log ++ [⟨logId, "create_site", "sites", sid, actor, now,
            sname⟩]) := by
  refine ⟨?_, ?_, ?_, ?_, ?_, ?_, ?_⟩
  · intro okW allocationId engChoice siteChoice amount today notes actor
      logId now st
    cases okW <;> exact ⟨_, rfl⟩
  · intro okW assignmentId engChoice siteChoice assignedBy today actor
      logId now st
    cases okW <;> exact ⟨_, rfl⟩
  · intro okE okAl expenseId siteChoice engChoice expType amount date
      payMode receiptPath notes actor logId now st
    refine ⟨reprStr (mkExpenseRow expenseId siteChoice engChoice expType
      amount date payMode receiptPath notes), ?_⟩
    cases okE <;> cases okAl <;>
      simp [recordExpense, logAction, apply_ite AppState.audit_log]
  · intro okW eid actor logId now st
    cases okW <;> rfl
  · intro okW eid actor logId now st
    cases okW <;> rfl
  · intro okW newId ename erole ephone eemail actor logId now st
    cases okW <;> rfl
  · intro okW sid sname slocation sstart actor logId now st
    cases okW <;> rfl

/-- Counterexample to C10: the approve handler does not write only the
expenses table — its trailing `log` call appends to `audit_log`
(src/index.py:232), so on a concrete state with an empty audit log the
action changes `audit_log` as well. -/
theorem c10_audit_log_also_written :
    (approveExpense true true "X1" "Alice" "L1" "t1"
        (AppState.mk [] [] [] []
          [mkExpenseRow "X1" "S1" "E1" "Material" 100 "2024-03-01" "Cash"
            "" ""] [])).audit_log ≠
      (AppState.mk [] [] [] []
        [mkExpenseRow "X1" "S1" "E1" "Material" 100 "2024-03-01" "Cash" ""
          ""] [] : AppState).audit_log := by
  decide

/-- C10 as amended: the approve and reject handlers write only the
expenses table and the audit log.  Every other table — `fund_allocations`
in particular, but also `engineers`, `sites` and `assignments` — is
unchanged by approval or rejection, whatever the lock outcomes; so
rejecting an expense does not restore the fund-allocation balance debited
when the expense was created, as the concrete 500-allocation /
200-expense / reject sequence shows (balance stays 300). -/
theorem c10_amended_approval_frame :
    (∀ (okW okA : Bool) (eid actor logId now : String) (st : AppState),
        (approveExpense okW okA eid actor logId now st).fund_allocations =
          st.fund_allocations ∧
        (approveExpense okW okA eid actor logId now st).engineers =
          st.engineers ∧
        (approveExpense okW okA eid actor logId now st).sites = st.sites ∧
        (approveExpense okW okA eid actor logId now st).assignments =
          st.assignments ∧
        (rejectExpense okW okA eid actor logId now st).fund_allocations =
          st.fund_allocations ∧
        (rejectExpense okW okA eid actor logId now st).engineers =
          st.engineers ∧
        (rejectExpense okW okA eid actor logId now st).sites = st.sites ∧
        (rejectExpense okW okA eid actor logId now st).assignments =
          st.assignments) ∧
    (recordExpense true true true "X1" "S1" "E1" "Material" 200
        "2024-03-01" "Cash" "" "" "alice" "L1" "t1"
        (AppState.mk [] [] []
          [⟨"A1", "E1", "S1", 500, "2024-01-01", 500, ""⟩] []
          [])).fund_allocations =
      [⟨"A1", "E1", "S1", 500, "2024-01-01", 300, ""⟩] ∧
    (rejectExpense true true "X1" "Bob" "L2" "t2"
        (recordExpense true true true "X1" "S1" "E1" "Material" 200
          "2024-03-01" "Cash" "" "" "alice" "L1" "t1"
          (AppState.mk [] [] []
            [⟨"A1", "E1", "S1", 500, "2024-01-01", 500, ""⟩] []
            []))).fund_allocations =
      [⟨"A1", "E1", "S1", 500, "2024-01-01", 300, ""⟩] := by
  refine ⟨?_, ?_, ?_⟩
  · intro okW okA eid actor logId now st
    cases okW <;> cases okA <;>
      exact ⟨rfl, rfl, rfl, rfl, rfl, rfl, rfl, rfl⟩
  · norm_num [recordExpense, logAction, reconcile, allocMatches, debit,
      firstMatchIdx, mkExpenseRow]
  · norm_num [recordExpense, rejectExpense, logAction, reconcile,
      allocMatches, debit, firstMatchIdx, mkExpenseRow, setApproved]

end ConstructionTracker
